import Mathlib

/-!
Shallow embedding of the hse-atlas main-API backend (FastAPI + SQLAlchemy).

Entities (`src/app/create_db.py`): `Admin`, `Project`, `User` rows.
Handlers are embedded from `src/app/main.py` and
`src/app/user_login_and_register.py` as pure functions from a request and a
database state to a response paired with the resulting database state.
External library calls (passlib bcrypt, jose JWT) are modelled from the
spec, as marked on their definitions.
-/

/-- Modelled from the spec: `pwd_context = CryptContext(schemes=["bcrypt"])`
delegates to the passlib library, which is not part of this repository.
Spec 4.1: `hash(plaintext) -> digest` using a salted adaptive hash with the
cost factor fixed at the library default.  The salt and cost parameters are
abstracted into the fixed digest tag below, so hashing is deterministic and
the digest is the tag followed by the payload. -/
def bcryptTag : String := "$2b$12$N9qo8uLOickgx2ZMRZoMye$"

/-- Source: `get_password_hash` in `src/app/user_login_and_register.py`,
with the passlib call modelled from the spec as `bcryptTag ++ password`. -/
def get_password_hash (password : String) : String :=
  bcryptTag ++ password

/-- Source: `verify_password` in `src/app/user_login_and_register.py`.
Modelled from the spec: `pwd_context.verify` is library code; spec 4.1 says
`verify(plaintext, digest)` is true iff the plaintext re-hashes to an
equivalent digest, and malformed digests yield false rather than an error. -/
def verify_password (plain_password hashed_password : String) : Bool :=
  hashed_password == get_password_hash plain_password

/-- Source: class `Settings` in `src/app/user_login_and_register.py`. -/
structure Settings where
  SECRET_KEY : String
  ALGORITHM : String
  ACCESS_TOKEN_EXPIRE_DAYS : Nat
deriving DecidableEq

/-- Source: `settings = Settings()` with the defaults from the class body. -/
def settings : Settings :=
  { SECRET_KEY := "your_secret_key_here"
    ALGORITHM := "HS256"
    ACCESS_TOKEN_EXPIRE_DAYS := 30 }

/-- Instants are seconds since the epoch; `timedelta(days=n)` is `n * 86400`. -/
def secondsPerDay : Nat := 86400

/-- Modelled from the spec: `jose.jwt.encode` is library code.  Spec 4.2: the
token carries the claim set set at issuance (`sub`, `exp`) and is signed with
a symmetric secret under a fixed algorithm; decoding recovers the claims. -/
structure Token where
  sub : String
  exp : Nat
  key : String
  alg : String
deriving DecidableEq

/-- The claim dictionary passed to `create_access_token`: the only caller
(`user_login`) passes exactly the key "sub". -/
structure TokenData where
  sub : String
deriving DecidableEq

/-- Source: `create_access_token` in `src/app/user_login_and_register.py`:
copies the data, adds `exp = utcnow() + timedelta(days=ACCESS_TOKEN_EXPIRE_DAYS)`
and signs with `settings.SECRET_KEY` under `settings.ALGORITHM`. -/
def create_access_token (now : Nat) (data : TokenData) : Token :=
  { sub := data.sub
    exp := now + settings.ACCESS_TOKEN_EXPIRE_DAYS * secondsPerDay
    key := settings.SECRET_KEY
    alg := settings.ALGORITHM }

/-- Source: table `admins` in `src/app/create_db.py` (timestamps omitted:
no embedded handler reads or writes them). -/
structure Admin where
  id : Nat
  login : String
  email : String
  password : String
deriving DecidableEq

/-- Source: table `projects` in `src/app/create_db.py`. -/
structure Project where
  id : Nat
  name : String
  description : String
  owner_id : Nat
deriving DecidableEq

/-- Source: table `users` in `src/app/create_db.py` (timestamps omitted). -/
structure User where
  id : Nat
  login : String
  email : String
  password : String
  project_id : Nat
deriving DecidableEq

/-- The relational store: the three tables plus the serial counters that
assign primary keys to newly inserted rows. -/
structure DB where
  admins : List Admin
  projects : List Project
  users : List User
  next_user_id : Nat
  next_project_id : Nat
deriving DecidableEq

/-- A handler outcome: `ok status body` for a normal response, `err status
detail` for a raised `HTTPException(status_code, detail)`. -/
inductive Response (α : Type) where
  | ok : Nat → α → Response α
  | err : Nat → String → Response α
deriving DecidableEq

/-- True when the response is a raised `HTTPException`. -/
def Response.isErr : Response α → Bool
  | .err _ _ => true
  | .ok _ _ => false

/-- Replace the first element satisfying `p` by `x` (the ORM mutates the
single row returned by `.first()`). -/
def replaceFirst (p : α → Bool) (x : α) : List α → List α
  | [] => []
  | a :: as => if p a then x :: as else a :: replaceFirst p x as

/-- Source: schema `UserRegisterData` in `src/app/user_login_and_register.py`. -/
structure UserRegisterData where
  email : String
  password : String
  login : String
deriving DecidableEq

/-- Source: schema `UserLoginData` in `src/app/user_login_and_register.py`. -/
structure UserLoginData where
  email : String
  password : String
deriving DecidableEq

/-- Source: the login response body
`{"access_token": access_token, "refresh_token": None}`. -/
structure LoginOut where
  access_token : Token
  refresh_token : Option Token
deriving DecidableEq

/-- Source: `user_register` in `src/app/user_login_and_register.py`
(POST /api/v1/AuthService/user_register/project_id).  Rejects 409 when some
user already has the email, then 409 when some user already has the login;
otherwise hashes the password and inserts the new user row. -/
def user_register (project_id : Nat) (user_data : UserRegisterData) (db : DB) :
    Response String × DB :=
  match db.users.find? (fun u => u.email == user_data.email) with
  | some _ => (.err 409 "E-mail already registered", db)
  | none =>
    match db.users.find? (fun u => u.login == user_data.login) with
    | some _ => (.err 409 "Login already exists", db)
    | none =>
      let hashed_password := get_password_hash user_data.password
      let new_user : User :=
        { id := db.next_user_id
          login := user_data.login
          email := user_data.email
          password := hashed_password
          project_id := project_id }
      (.ok 200 "User registration completed!",
        { db with users := db.users ++ [new_user],
                  next_user_id := db.next_user_id + 1 })

/-- Source: `user_login` in `src/app/user_login_and_register.py`
(POST /api/v1/AuthService/user_login/project_id).  401 when no user has the
email or the password fails verification, then 403 when the found user's
project differs from the path project, otherwise issues a token.
`now` is the issuance instant (`datetime.utcnow()`). -/
def user_login (project_id : Nat) (user_data : UserLoginData) (now : Nat)
    (db : DB) : Response LoginOut × DB :=
  match db.users.find? (fun u => u.email == user_data.email) with
  | none => (.err 401 "Invalid email or password", db)
  | some user =>
    if ¬ verify_password user_data.password user.password then
      (.err 401 "Invalid email or password", db)
    else if user.project_id ≠ project_id then
      (.err 403 "User is not associated with the specified project", db)
    else
      (.ok 200
        { access_token := create_access_token now { sub := toString user.id }
          refresh_token := none }, db)

/-- Source: schema `ProjectCreate` in `src/app/main.py`. -/
structure ProjectCreate where
  name : String
  description : String
  owner_id : Nat
deriving DecidableEq

/-- Source: schema `ProjectUpdate` in `src/app/main.py`: partial update,
absent fields arrive as None. -/
structure ProjectUpdate where
  name : Option String
  description : Option String
deriving DecidableEq

/-- Source: schema `ProjectOut` in `src/app/main.py`. -/
structure ProjectOut where
  id : Nat
  name : String
  description : String
  owner_id : Nat
  user_count : Option Nat
deriving DecidableEq

/-- Source: schema `UserResponse` in `src/app/main.py`. -/
structure UserResponse where
  id : Nat
  login : String
  email : String
deriving DecidableEq

/-- Source: schema `ProjectDetailResponse` in `src/app/main.py`. -/
structure ProjectDetailResponse where
  id : Nat
  name : String
  description : String
  owner_id : Nat
  users : List UserResponse
deriving DecidableEq

/-- Source: schema `UserCreate` in `src/app/main.py`. -/
structure UserCreate where
  login : String
  email : String
  password : String
  project_id : Nat
deriving DecidableEq

/-- Source: schema `UserUpdate` in `src/app/main.py`: partial update. -/
structure UserUpdate where
  login : Option String
  email : Option String
  password : Option String
deriving DecidableEq

/-- Source: schema `UsersProjectOut` in `src/app/main.py`. -/
structure UsersProjectOut where
  project_id : Nat
  project_name : String
  project_description : String
  users : List User
deriving DecidableEq

/-- Source: `create_project` in `src/app/main.py` (POST /projects/):
inserts a new project row and returns it with status 201. -/
def create_project (project : ProjectCreate) (db : DB) :
    Response ProjectOut × DB :=
  let db_project : Project :=
    { id := db.next_project_id
      name := project.name
      description := project.description
      owner_id := project.owner_id }
  (.ok 201
    { id := db_project.id, name := db_project.name
      description := db_project.description, owner_id := db_project.owner_id
      user_count := none },
    { db with projects := db.projects ++ [db_project],
              next_project_id := db.next_project_id + 1 })

/-- Source: `update_project` in `src/app/main.py`
(PUT /projects/owner/project_id with query parameter owner_id): 404 when no
project has the id, 403 when the owner differs, otherwise applies the
non-null fields of the partial update and returns the updated row. -/
def update_project (project_id owner_id : Nat) (project : ProjectUpdate)
    (db : DB) : Response ProjectOut × DB :=
  match db.projects.find? (fun p => p.id == project_id) with
  | none => (.err 404 "Проект не найден", db)
  | some db_project =>
    if db_project.owner_id ≠ owner_id then
      (.err 403 "Нет прав для изменения этого проекта", db)
    else
      let updated : Project :=
        { db_project with
            name := project.name.getD db_project.name
            description := project.description.getD db_project.description }
      (.ok 200
        { id := updated.id, name := updated.name
          description := updated.description, owner_id := updated.owner_id
          user_count := none },
        { db with projects :=
            replaceFirst (fun p => p.id == project_id) updated db.projects })

/-- Source: `delete_project` in `src/app/main.py`
(DELETE /projects/owner/project_id with query parameter owner_id): 404 when
no project has the id, 403 when the owner differs, otherwise removes the row
and responds 204 with no body. -/
def delete_project (project_id owner_id : Nat) (db : DB) :
    Response Unit × DB :=
  match db.projects.find? (fun p => p.id == project_id) with
  | none => (.err 404 "Проект не найден", db)
  | some db_project =>
    if db_project.owner_id ≠ owner_id then
      (.err 403 "Нет прав для удаления этого проекта", db)
    else
      (.ok 204 (),
        { db with projects := db.projects.eraseP (fun p => p.id == project_id) })

/-- Source: `list_projects` in `src/app/main.py` (GET /projects/owner/owner_id):
all projects of the owner with their user counts; 404 when the list is empty. -/
def list_projects (owner_id : Nat) (db : DB) :
    Response (List ProjectOut) × DB :=
  let projects := (db.projects.filter (fun p => p.owner_id == owner_id)).map
    (fun p =>
      { id := p.id, name := p.name, description := p.description
        owner_id := p.owner_id
        user_count :=
          some ((db.users.filter (fun u => u.project_id == p.id)).length) })
  if projects.isEmpty then (.err 404 "Проекты не найдены", db)
  else (.ok 200 projects, db)

/-- Source: `get_project_details` in `src/app/main.py`
(GET /projects/project_id with query parameter owner_id): the query filters
on both the project id and the owner id, so a missing project and an owner
mismatch fall into the same 404 branch; otherwise returns details with the
project's users. -/
def get_project_details (project_id owner_id : Nat) (db : DB) :
    Response ProjectDetailResponse × DB :=
  match db.projects.find?
      (fun p => p.id == project_id && p.owner_id == owner_id) with
  | none => (.err 404 "Проект не найден или доступ запрещён", db)
  | some project =>
    let users := db.users.filter (fun u => u.project_id == project_id)
    (.ok 200
      { id := project.id, name := project.name
        description := project.description, owner_id := project.owner_id
        users := users.map (fun u =>
          { id := u.id, login := u.login, email := u.email }) }, db)

/-- Source: `create_user` in `src/app/main.py` (POST /users/): 404 when the
target project does not exist, otherwise inserts the user row with the
request's password stored verbatim and returns it with status 201. -/
def create_user (user : UserCreate) (db : DB) : Response User × DB :=
  match db.projects.find? (fun p => p.id == user.project_id) with
  | none => (.err 404 "Проект не найден", db)
  | some _ =>
    let db_user : User :=
      { id := db.next_user_id
        login := user.login
        email := user.email
        password := user.password
        project_id := user.project_id }
    (.ok 201 db_user,
      { db with users := db.users ++ [db_user],
                next_user_id := db.next_user_id + 1 })

/-- Source: `get_user` in `src/app/main.py` (GET /users/user_id). -/
def get_user (user_id : Nat) (db : DB) : Response User × DB :=
  match db.users.find? (fun u => u.id == user_id) with
  | none => (.err 404 "Пользователь не найден", db)
  | some db_user => (.ok 200 db_user, db)

/-- Source: `get_users_by_project` in `src/app/main.py`
(GET /users/project/project_id): 404 when the project does not exist,
otherwise the project with its users. -/
def get_users_by_project (project_id : Nat) (db : DB) :
    Response UsersProjectOut × DB :=
  match db.projects.find? (fun p => p.id == project_id) with
  | none => (.err 404 "Проект не найден", db)
  | some project =>
    (.ok 200
      { project_id := project.id
        project_name := project.name
        project_description := project.description
        users := db.users.filter (fun u => u.project_id == project_id) }, db)

/-- Source: `update_user` in `src/app/main.py` (PUT /users/user_id): 404 when
no user has the id, otherwise applies the non-null fields of the partial
update (project_id is never changed) and returns the updated row. -/
def update_user (user_id : Nat) (user : UserUpdate) (db : DB) :
    Response User × DB :=
  match db.users.find? (fun u => u.id == user_id) with
  | none => (.err 404 "Пользователь не найден", db)
  | some db_user =>
    let updated : User :=
      { db_user with
          login := user.login.getD db_user.login
          email := user.email.getD db_user.email
          password := user.password.getD db_user.password }
    (.ok 200 updated,
      { db with users :=
          replaceFirst (fun u => u.id == user_id) updated db.users })

/-- Source: `delete_user` in `src/app/main.py` (DELETE /users/user_id): 404
when no user has the id, otherwise removes the row and responds 204 with no
body. -/
def delete_user (user_id : Nat) (db : DB) : Response Unit × DB :=
  match db.users.find? (fun u => u.id == user_id) with
  | none => (.err 404 "Пользователь не найден", db)
  | some _ =>
    (.ok 204 (),
      { db with users := db.users.eraseP (fun u => u.id == user_id) })

/-- A concrete stored project used to evaluate theorems on concrete inputs. -/
def proj1 : Project :=
  { id := 1, name := "Project One", description := "first project", owner_id := 1 }

/-- A concrete stored user of `proj1`, registered with password "password1". -/
def dbUser1 : User :=
  { id := 1, login := "alice", email := "alice@example.com"
    password := get_password_hash "password1", project_id := 1 }

/-- A concrete database state holding `proj1` and `dbUser1`. -/
def db1 : DB :=
  { admins := [], projects := [proj1], users := [dbUser1]
    next_user_id := 2, next_project_id := 2 }

theorem get_password_hash_inj {p q : String}
    (h : get_password_hash p = get_password_hash q) : p = q := by
  have hd := congrArg String.data h
  simp only [get_password_hash, String.data_append] at hd
  exact String.ext (List.append_cancel_left hd)

theorem ne_get_password_hash_self (p : String) : p ≠ get_password_hash p := by
  intro h
  have hl := congrArg String.length h
  rw [get_password_hash, String.length_append] at hl
  have : bcryptTag.length = 30 := by decide
  omega

theorem verify_password_hash_self (p : String) :
    verify_password p (get_password_hash p) = true := by
  simp [verify_password]

theorem verify_password_hash_ne {p q : String} (h : q ≠ p) :
    verify_password q (get_password_hash p) = false := by
  simp only [verify_password, beq_eq_false_iff_ne, ne_eq]
  intro he
  exact h (get_password_hash_inj he.symm)

theorem verify_password_plain_self (p : String) :
    verify_password p p = false := by
  simp only [verify_password, beq_eq_false_iff_ne, ne_eq]
  exact ne_get_password_hash_self p

/-- C3: for every subject id, the issued token carries exactly the claims
sub = toString id and exp = issuance instant + 30 days, and is signed with
the configured symmetric secret under the fixed algorithm "HS256". -/
theorem C3_token_claims (id now : Nat) :
    (create_access_token now { sub := toString id }).sub = toString id ∧
    (create_access_token now { sub := toString id }).exp =
      now + 30 * secondsPerDay ∧
    (create_access_token now { sub := toString id }).key =
      settings.SECRET_KEY ∧
    (create_access_token now { sub := toString id }).alg = "HS256" :=
  ⟨rfl, rfl, rfl, rfl⟩

/-- C5: verifying a plaintext against its own hash succeeds; verifying any
other plaintext against that hash fails; and a malformed digest (a string
that is not a well-formed hash digest) makes verification return false. -/
theorem C5_hash_verify (p q d : String) :
    verify_password p (get_password_hash p) = true ∧
    (q ≠ p → verify_password q (get_password_hash p) = false) ∧
    ((∀ r, d ≠ get_password_hash r) → verify_password q d = false) := by
  refine ⟨verify_password_hash_self p, fun h => verify_password_hash_ne h,
    fun h => ?_⟩
  simp only [verify_password, beq_eq_false_iff_ne, ne_eq]
  exact h q

/-- C5 witness: the round trip, the mismatch and the malformed-digest case
evaluated on concrete passwords. -/
theorem C5_hash_verify_witness :
    verify_password "password1" (get_password_hash "password1") = true ∧
    verify_password "password2" (get_password_hash "password1") = false ∧
    verify_password "password2" "not-a-digest" = false := by
  refine ⟨(C5_hash_verify "password1" "password2" "not-a-digest").1,
    (C5_hash_verify "password1" "password2" "not-a-digest").2.1 (by decide),
    (C5_hash_verify "password1" "password2" "not-a-digest").2.2 ?_⟩
  intro r hr
  have hl := congrArg String.length hr
  rw [get_password_hash, String.length_append] at hl
  have h30 : bcryptTag.length = 30 := by decide
  have h12 : ("not-a-digest" : String).length = 12 := by decide
  omega

/-- C1: login returns 401 when no stored user has the email or when password
verification against the stored hash fails (regardless of the project), 403
when the found user's project differs from the path project, and otherwise
an access token for the found user — the checks in exactly this order. -/
theorem C1_user_login_order (project_id : Nat) (d : UserLoginData) (now : Nat)
    (db : DB) :
    ((∀ u ∈ db.users, u.email ≠ d.email) →
      user_login project_id d now db =
        (.err 401 "Invalid email or password", db)) ∧
    (∀ u, db.users.find? (fun v => v.email == d.email) = some u →
      (verify_password d.password u.password = false →
        user_login project_id d now db =
          (.err 401 "Invalid email or password", db)) ∧
      (verify_password d.password u.password = true → u.project_id ≠ project_id →
        user_login project_id d now db =
          (.err 403 "User is not associated with the specified project", db)) ∧
      (verify_password d.password u.password = true → u.project_id = project_id →
        user_login project_id d now db =
          (.ok 200
            { access_token := create_access_token now { sub := toString u.id }
              refresh_token := none }, db))) := by
  constructor
  · intro h
    have hfind : db.users.find? (fun v => v.email == d.email) = none := by
      rw [List.find?_eq_none]
      intro u hu
      simpa using h u hu
    simp [user_login, hfind]
  · intro u hfind
    refine ⟨fun hv => ?_, fun hv hp => ?_, fun hv hp => ?_⟩
    · simp [user_login, hfind, hv]
    · simp [user_login, hfind, hv, hp]
    · simp [user_login, hfind, hv, hp]

/-- C1 witness: on the concrete store, a wrong password for a stored email
yields 401 even though the requested project (2) also mismatches the user's
project (1), i.e. the password check comes first. -/
theorem C1_user_login_order_witness :
    user_login 2 { email := "alice@example.com", password := "wrongpass" } 0
      db1 = (.err 401 "Invalid email or password", db1) :=
  ((C1_user_login_order 2
      { email := "alice@example.com", password := "wrongpass" } 0 db1).2
    dbUser1 (by decide)).1 (by decide)

/-- C2 counterexample: registering into project 2 with an email that exists
only in project 1 still returns 409, although no user with that email or
login exists in the scope of the target project — the uniqueness check is
global, not per-project as the claim states. -/
theorem C2_counterexample :
    (user_register 2
        { email := "alice@example.com", password := "password2",
          login := "bob" } db1).1 = .err 409 "E-mail already registered" ∧
    ∀ u ∈ db1.users,
      ¬ (u.project_id = 2 ∧
          (u.email = "alice@example.com" ∨ u.login = "bob")) := by
  decide

/-- C2 amended: registration returns Conflict (409) iff a user with the same
email or the same login already exists anywhere in the store (globally,
across all projects); otherwise it hashes the password, inserts the user row
bound to the given project and reports success; and after a successful
registration, a second registration with the same email returns 409. -/
theorem C2_user_register_conflict (project_id : Nat) (d : UserRegisterData)
    (db : DB) :
    ((∃ detail, (user_register project_id d db).1 = .err 409 detail) ↔
      ∃ u ∈ db.users, u.email = d.email ∨ u.login = d.login) ∧
    ((∀ u ∈ db.users, u.email ≠ d.email ∧ u.login ≠ d.login) →
      user_register project_id d db =
        (.ok 200 "User registration completed!",
          { db with
              users := db.users ++
                [{ id := db.next_user_id, login := d.login, email := d.email
                   password := get_password_hash d.password
                   project_id := project_id }]
              next_user_id := db.next_user_id + 1 })) ∧
    ((∀ u ∈ db.users, u.email ≠ d.email ∧ u.login ≠ d.login) →
      ∀ (project_id2 : Nat) (d2 : UserRegisterData), d2.email = d.email →
        (user_register project_id2 d2 (user_register project_id d db).2).1 =
          .err 409 "E-mail already registered") := by
  refine ⟨⟨?_, ?_⟩, ?_, ?_⟩
  · intro hconflict
    rcases hfe : db.users.find? (fun u => u.email == d.email) with _ | u
    · rcases hfl : db.users.find? (fun u => u.login == d.login) with _ | v
      · exfalso
        rcases hconflict with ⟨detail, hdet⟩
        simp [user_register, hfe, hfl] at hdet
      · exact ⟨v, List.mem_of_find?_eq_some hfl,
          Or.inr (by simpa using List.find?_some hfl)⟩
    · exact ⟨u, List.mem_of_find?_eq_some hfe,
        Or.inl (by simpa using List.find?_some hfe)⟩
  · rintro ⟨u, hu, hor⟩
    rcases hfe : db.users.find? (fun v => v.email == d.email) with _ | w
    · have hne : ¬ (u.email == d.email) = true := List.find?_eq_none.mp hfe u hu
      rcases hor with he | hl
      · exact absurd he (by simpa using hne)
      · rcases hfl : db.users.find? (fun v => v.login == d.login) with _ | w2
        · have := List.find?_eq_none.mp hfl u hu
          simp [hl] at this
        · exact ⟨"Login already exists", by simp [user_register, hfe, hfl]⟩
    · exact ⟨"E-mail already registered", by simp [user_register, hfe]⟩
  · intro h
    have hfe : db.users.find? (fun u => u.email == d.email) = none := by
      rw [List.find?_eq_none]; intro u hu; simpa using (h u hu).1
    have hfl : db.users.find? (fun u => u.login == d.login) = none := by
      rw [List.find?_eq_none]; intro u hu; simpa using (h u hu).2
    simp [user_register, hfe, hfl]
  · intro h pid2 d2 he2
    have hfe : db.users.find? (fun u => u.email == d.email) = none := by
      rw [List.find?_eq_none]; intro u hu; simpa using (h u hu).1
    have hfl : db.users.find? (fun u => u.login == d.login) = none := by
      rw [List.find?_eq_none]; intro u hu; simpa using (h u hu).2
    have hfe2 : db.users.find? (fun u => u.email == d2.email) = none := by
      rw [List.find?_eq_none]; intro u hu; rw [he2]; simpa using (h u hu).1
    simp [user_register, hfe, hfl, List.find?_append, hfe2, he2]

/-- C2 amended witness: registering "bob" into project 2 on the concrete
store succeeds, and registering the same email again returns 409. -/
theorem C2_user_register_conflict_witness :
    (user_register 2
        { email := "bob@example.com", password := "password2",
          login := "bob" } db1).1 = .ok 200 "User registration completed!" ∧
    (user_register 3
        { email := "bob@example.com", password := "password3",
          login := "carol" }
      (user_register 2
        { email := "bob@example.com", password := "password2",
          login := "bob" } db1).2).1 = .err 409 "E-mail already registered" :=
  ⟨by
    rw [(C2_user_register_conflict 2
      { email := "bob@example.com", password := "password2", login := "bob" }
      db1).2.1 (by decide)],
   (C2_user_register_conflict 2
      { email := "bob@example.com", password := "password2", login := "bob" }
      db1).2.2 (by decide) 3
      { email := "bob@example.com", password := "password3", login := "carol" }
      rfl⟩

/-- C4: when the target project exists, an owner mismatch yields 403 with the
store unchanged; an owner match applies exactly the non-null requested
fields (name, description), keeps id and owner_id and any unsupplied field,
returns the updated record, and leaves users and admins untouched. -/
theorem C4_update_project_ownership (project_id owner_id : Nat)
    (upd : ProjectUpdate) (db : DB) (p : Project)
    (hfind : db.projects.find? (fun q => q.id == project_id) = some p) :
    (p.owner_id ≠ owner_id →
      update_project project_id owner_id upd db =
        (.err 403 "Нет прав для изменения этого проекта", db)) ∧
    (p.owner_id = owner_id →
      ∃ updated : Project,
        update_project project_id owner_id upd db =
          (.ok 200
            { id := updated.id, name := updated.name,
              description := updated.description,
              owner_id := updated.owner_id, user_count := none },
            { db with projects :=
                (replaceFirst (fun q => q.id == project_id) updated
                  db.projects) }) ∧
        updated.id = p.id ∧ updated.owner_id = p.owner_id ∧
        (∀ n, upd.name = some n → updated.name = n) ∧
        (upd.name = none → updated.name = p.name) ∧
        (∀ s, upd.description = some s → updated.description = s) ∧
        (upd.description = none → updated.description = p.description) ∧
        (update_project project_id owner_id upd db).2.users = db.users ∧
        (update_project project_id owner_id upd db).2.admins = db.admins) := by
  constructor
  · intro h
    simp [update_project, hfind, h]
  · intro h
    refine
      ⟨{ p with
          name := upd.name.getD p.name
          description := upd.description.getD p.description },
        ?_, rfl, rfl, ?_, ?_, ?_, ?_, ?_, ?_⟩
    · simp [update_project, hfind, h]
    · intro n hn; rw [hn]; rfl
    · intro hn; rw [hn]; rfl
    · intro s hs; rw [hs]; rfl
    · intro hs; rw [hs]; rfl
    · simp [update_project, hfind, h]
    · simp [update_project, hfind, h]

/-- C4 witness: on the concrete store, updating project 1 with owner 2 (the
real owner is 1) returns 403 and leaves the store unchanged; updating as
owner 1 with a new name returns the renamed record. -/
theorem C4_update_project_ownership_witness :
    update_project 1 2 { name := none, description := none } db1 =
      (.err 403 "Нет прав для изменения этого проекта", db1) ∧
    (update_project 1 1 { name := some "Renamed", description := none }
        db1).1 =
      .ok 200
        { id := 1, name := "Renamed", description := "first project",
          owner_id := 1, user_count := none } := by
  constructor
  · exact (C4_update_project_ownership 1 2
      { name := none, description := none } db1 proj1 (by decide)).1
      (by decide)
  · obtain ⟨updated, heq, hid, hown, hnameSome, _, _, hdescNone, _, _⟩ :=
      (C4_update_project_ownership 1 1
        { name := some "Renamed", description := none } db1 proj1
        (by decide)).2 (by decide)
    rw [heq]
    have h1 : updated.name = "Renamed" := hnameSome "Renamed" rfl
    have h2 : updated.description = proj1.description := hdescNone rfl
    simp [hid, hown, h1, h2, proj1]

/-- C6: deleting a project never deletes or modifies any User (or Admin)
row — there is no cascade — and a successful delete by the owner removes
exactly the first project row with the given id. -/
theorem C6_delete_project_no_cascade (project_id owner_id : Nat) (db : DB) :
    (delete_project project_id owner_id db).2.users = db.users ∧
    (delete_project project_id owner_id db).2.admins = db.admins ∧
    (∀ p, db.projects.find? (fun q => q.id == project_id) = some p →
      p.owner_id = owner_id →
      delete_project project_id owner_id db =
        (.ok 204 (),
          { db with projects :=
              (db.projects.eraseP (fun q => q.id == project_id)) })) := by
  refine ⟨?_, ?_, ?_⟩
  · rcases hf : db.projects.find? (fun q => q.id == project_id) with _ | p
    · simp [delete_project, hf]
    · by_cases h : p.owner_id = owner_id <;> simp [delete_project, hf, h]
  · rcases hf : db.projects.find? (fun q => q.id == project_id) with _ | p
    · simp [delete_project, hf]
    · by_cases h : p.owner_id = owner_id <;> simp [delete_project, hf, h]
  · intro p hf h
    simp [delete_project, hf, h]

/-- C6 witness: deleting project 1 as its owner on the concrete store leaves
the user of project 1 stored unchanged and removes the project row. -/
theorem C6_delete_project_no_cascade_witness :
    (delete_project 1 1 db1).2.users = db1.users ∧
    dbUser1.project_id = proj1.id ∧
    delete_project 1 1 db1 =
      (.ok 204 (), { db1 with projects := [] }) :=
  ⟨(C6_delete_project_no_cascade 1 1 db1).1, by decide,
    by
      have h := (C6_delete_project_no_cascade 1 1 db1).2.2 proj1 (by decide)
        (by decide)
      rw [h]
      decide⟩

/-- C7 counterexample: project 1 exists in the concrete store, yet deleting
it with a non-owner id returns 403, not the 204 success the claim promises
for every existing row. -/
theorem C7_counterexample :
    (∃ p ∈ db1.projects, p.id = 1) ∧
    delete_project 1 2 db1 =
      (.err 403 "Нет прав для удаления этого проекта", db1) := by
  decide

/-- C7 amended: deleting a user or a project whose id matches no stored row
returns 404 and leaves the store unchanged; deleting an existing user
succeeds with 204 and no body; deleting an existing project succeeds with
204 when the caller-supplied owner_id matches, and returns 403 with the
store unchanged when it does not. -/
theorem C7_delete_semantics (user_id project_id owner_id : Nat) (db : DB) :
    ((∀ u ∈ db.users, u.id ≠ user_id) →
      delete_user user_id db = (.err 404 "Пользователь не найден", db)) ∧
    (∀ u, db.users.find? (fun v => v.id == user_id) = some u →
      (delete_user user_id db).1 = .ok 204 ()) ∧
    ((∀ p ∈ db.projects, p.id ≠ project_id) →
      delete_project project_id owner_id db =
        (.err 404 "Проект не найден", db)) ∧
    (∀ p, db.projects.find? (fun q => q.id == project_id) = some p →
      (p.owner_id = owner_id →
        (delete_project project_id owner_id db).1 = .ok 204 ()) ∧
      (p.owner_id ≠ owner_id →
        delete_project project_id owner_id db =
          (.err 403 "Нет прав для удаления этого проекта", db))) := by
  refine ⟨?_, ?_, ?_, ?_⟩
  · intro h
    have hf : db.users.find? (fun v => v.id == user_id) = none := by
      rw [List.find?_eq_none]; intro u hu; simpa using h u hu
    simp [delete_user, hf]
  · intro u hf
    simp [delete_user, hf]
  · intro h
    have hf : db.projects.find? (fun q => q.id == project_id) = none := by
      rw [List.find?_eq_none]; intro p hp; simpa using h p hp
    simp [delete_project, hf]
  · intro p hf
    exact ⟨fun h => by simp [delete_project, hf, h],
      fun h => by simp [delete_project, hf, h]⟩

/-- C7 amended witness: on the concrete store, deleting the missing user 5
and the missing project 7 return 404 with the store unchanged, deleting the
existing user 1 returns 204, and deleting project 1 as a non-owner returns
403. -/
theorem C7_delete_semantics_witness :
    delete_user 5 db1 = (.err 404 "Пользователь не найден", db1) ∧
    delete_project 7 1 db1 = (.err 404 "Проект не найден", db1) ∧
    (delete_user 1 db1).1 = .ok 204 () ∧
    delete_project 1 2 db1 =
      (.err 403 "Нет прав для удаления этого проекта", db1) :=
  ⟨(C7_delete_semantics 5 7 1 db1).1 (by decide),
   (C7_delete_semantics 5 7 1 db1).2.2.1 (by decide),
   (C7_delete_semantics 1 7 1 db1).2.1 dbUser1 (by decide),
   ((C7_delete_semantics 5 1 2 db1).2.2.2 proj1 (by decide)).2 (by decide)⟩

/-- C8: every embedded handler raises its error response before performing
any commit: whenever the response is an HTTPException (404, 409, 401 or
403), the resulting store equals the initial store, for every request. -/
theorem C8_error_atomicity (db : DB) :
    (∀ pid d, (user_register pid d db).1.isErr = true →
      (user_register pid d db).2 = db) ∧
    (∀ pid d now, (user_login pid d now db).1.isErr = true →
      (user_login pid d now db).2 = db) ∧
    (∀ pid oid upd, (update_project pid oid upd db).1.isErr = true →
      (update_project pid oid upd db).2 = db) ∧
    (∀ pid oid, (delete_project pid oid db).1.isErr = true →
      (delete_project pid oid db).2 = db) ∧
    (∀ oid, (list_projects oid db).1.isErr = true →
      (list_projects oid db).2 = db) ∧
    (∀ pid oid, (get_project_details pid oid db).1.isErr = true →
      (get_project_details pid oid db).2 = db) ∧
    (∀ u, (create_user u db).1.isErr = true → (create_user u db).2 = db) ∧
    (∀ uid, (get_user uid db).1.isErr = true → (get_user uid db).2 = db) ∧
    (∀ pid, (get_users_by_project pid db).1.isErr = true →
      (get_users_by_project pid db).2 = db) ∧
    (∀ uid upd, (update_user uid upd db).1.isErr = true →
      (update_user uid upd db).2 = db) ∧
    (∀ uid, (delete_user uid db).1.isErr = true →
      (delete_user uid db).2 = db) := by
  refine ⟨?_, ?_, ?_, ?_, ?_, ?_, ?_, ?_, ?_, ?_, ?_⟩
  · intro pid d h
    rcases hfe : db.users.find? (fun u => u.email == d.email) with _ | u
    · rcases hfl : db.users.find? (fun u => u.login == d.login) with _ | v
      · simp [user_register, hfe, hfl, Response.isErr] at h
      · simp [user_register, hfe, hfl]
    · simp [user_register, hfe]
  · intro pid d now h
    rcases hfe : db.users.find? (fun u => u.email == d.email) with _ | u
    · simp [user_login, hfe]
    · simp only [user_login, hfe]
      split
      · rfl
      · split <;> rfl
  · intro pid oid upd h
    rcases hf : db.projects.find? (fun p => p.id == pid) with _ | p
    · simp [update_project, hf]
    · by_cases ho : p.owner_id = oid
      · simp [update_project, hf, ho, Response.isErr] at h
      · simp [update_project, hf, ho]
  · intro pid oid h
    rcases hf : db.projects.find? (fun p => p.id == pid) with _ | p
    · simp [delete_project, hf]
    · by_cases ho : p.owner_id = oid
      · simp [delete_project, hf, ho, Response.isErr] at h
      · simp [delete_project, hf, ho]
  · intro oid h
    simp only [list_projects]
    split <;> rfl
  · intro pid oid h
    rcases hf : db.projects.find?
        (fun p => p.id == pid && p.owner_id == oid) with _ | p
    · simp [get_project_details, hf]
    · simp [get_project_details, hf]
  · intro u h
    rcases hf : db.projects.find? (fun p => p.id == u.project_id) with _ | p
    · simp [create_user, hf]
    · simp [create_user, hf, Response.isErr] at h
  · intro uid h
    rcases hf : db.users.find? (fun v => v.id == uid) with _ | v
    · simp [get_user, hf]
    · simp [get_user, hf]
  · intro pid h
    rcases hf : db.projects.find? (fun p => p.id == pid) with _ | p
    · simp [get_users_by_project, hf]
    · simp [get_users_by_project, hf]
  · intro uid upd h
    rcases hf : db.users.find? (fun v => v.id == uid) with _ | v
    · simp [update_user, hf]
    · simp [update_user, hf, Response.isErr] at h
  · intro uid h
    rcases hf : db.users.find? (fun v => v.id == uid) with _ | v
    · simp [delete_user, hf]
    · simp [delete_user, hf, Response.isErr] at h

/-- C8 witness: a conflicting registration on the concrete store returns an
error and leaves the store exactly as it was. -/
theorem C8_error_atomicity_witness :
    (user_register 2
        { email := "alice@example.com", password := "password9",
          login := "dave" } db1).1.isErr = true ∧
    (user_register 2
        { email := "alice@example.com", password := "password9",
          login := "dave" } db1).2 = db1 :=
  ⟨by decide,
    (C8_error_atomicity db1).1 2
      { email := "alice@example.com", password := "password9",
        login := "dave" } (by decide)⟩

/-- C9: the plain CRUD creation endpoint stores the supplied password
verbatim (no hashing), and a user created this way cannot authenticate via
user_login with that password, because login verifies the plaintext against
the stored value as a digest. -/
theorem C9_create_user_plaintext (u : UserCreate) (db : DB) (proj : Project)
    (hproj : db.projects.find? (fun p => p.id == u.project_id) = some proj)
    (hemail : ∀ v ∈ db.users, v.email ≠ u.email) :
    create_user u db =
      (.ok 201
        { id := db.next_user_id, login := u.login, email := u.email,
          password := u.password, project_id := u.project_id },
        { db with
            users := (db.users ++
              [{ id := db.next_user_id, login := u.login, email := u.email,
                 password := u.password, project_id := u.project_id }]),
            next_user_id := db.next_user_id + 1 }) ∧
    (∀ pid now,
      user_login pid { email := u.email, password := u.password } now
        (create_user u db).2 =
      (.err 401 "Invalid email or password", (create_user u db).2)) := by
  constructor
  · simp [create_user, hproj]
  · intro pid now
    have hfe : db.users.find? (fun v => v.email == u.email) = none := by
      rw [List.find?_eq_none]; intro v hv; simpa using hemail v hv
    have hfind : ((create_user u db).2).users.find?
        (fun v => v.email == u.email) =
        some { id := db.next_user_id, login := u.login, email := u.email,
               password := u.password, project_id := u.project_id } := by
      simp [create_user, hproj, List.find?_append, hfe]
    simp [user_login, hfind, verify_password_plain_self]

/-- C9 witness: creating "carol" through the CRUD endpoint stores the
plaintext "password5" as her password, and logging in with exactly those
credentials is rejected with 401. -/
theorem C9_create_user_plaintext_witness :
    (create_user
        { login := "carol", email := "carol@example.com",
          password := "password5", project_id := 1 } db1).1 =
      .ok 201
        { id := 2, login := "carol", email := "carol@example.com",
          password := "password5", project_id := 1 } ∧
    user_login 1
        { email := "carol@example.com", password := "password5" } 0
        (create_user
          { login := "carol", email := "carol@example.com",
            password := "password5", project_id := 1 } db1).2 =
      (.err 401 "Invalid email or password",
        (create_user
          { login := "carol", email := "carol@example.com",
            password := "password5", project_id := 1 } db1).2) := by
  have h := C9_create_user_plaintext
    { login := "carol", email := "carol@example.com",
      password := "password5", project_id := 1 } db1 proj1
    (by decide) (by decide)
  exact ⟨by rw [h.1]; rfl, h.2 1 0⟩


/-- C10: when the stored project with the requested id has a different
owner, the details endpoint answers with the same 404 NotFound response it
gives for a nonexistent project — not 403 — so ownership failure and
absence are indistinguishable to the caller. -/
theorem C10_project_details_owner_mismatch (project_id owner_id : Nat)
    (db : DB) (p : Project) (hp : p ∈ db.projects) (hid : p.id = project_id)
    (huniq : ∀ q ∈ db.projects, q.id = project_id → q.owner_id = p.owner_id)
    (hmis : owner_id ≠ p.owner_id) :
    get_project_details project_id owner_id db =
      (.err 404 "Проект не найден или доступ запрещён", db) ∧
    (∀ db2 : DB, (∀ q ∈ db2.projects, q.id ≠ project_id) →
      get_project_details project_id owner_id db2 =
        (.err 404 "Проект не найден или доступ запрещён", db2)) := by
  constructor
  · have hf : db.projects.find?
        (fun q => q.id == project_id && q.owner_id == owner_id) = none := by
      rw [List.find?_eq_none]
      intro q hq
      simp only [Bool.and_eq_true, beq_iff_eq, not_and]
      intro hqid hqo
      exact hmis (hqo.symm.trans (huniq q hq hqid))
    simp [get_project_details, hf]
  · intro db2 h2
    have hf : db2.projects.find?
        (fun q => q.id == project_id && q.owner_id == owner_id) = none := by
      rw [List.find?_eq_none]
      intro q hq
      simp only [Bool.and_eq_true, beq_iff_eq, not_and]
      intro hqid
      exact absurd hqid (h2 q hq)
    simp [get_project_details, hf]

/-- C10 witness: project 1 exists with owner 1, yet asking for its details
as owner 2 returns the 404 response, identical to asking for the missing
project id 7. -/
theorem C10_project_details_owner_mismatch_witness :
    get_project_details 1 2 db1 =
      (.err 404 "Проект не найден или доступ запрещён", db1) ∧
    get_project_details 1 2 { db1 with projects := [] } =
      (.err 404 "Проект не найден или доступ запрещён",
        { db1 with projects := [] }) :=
  ⟨(C10_project_details_owner_mismatch 1 2 db1 proj1 (by decide) (by decide)
      (by decide) (by decide)).1,
   (C10_project_details_owner_mismatch 1 2 db1 proj1 (by decide) (by decide)
      (by decide) (by decide)).2 { db1 with projects := [] } (by decide)⟩
